import Mathlib

/-!
Shallow embedding of `src/resource_game.py`, an idle resource-accumulation
game: a villager allocation (integers per resource category) is edited by
textual commands, and a periodic accumulator tick grows each resource
stockpile by `villagers * rate`.  Python `float` arithmetic on the ledger is
modelled by exact rationals (the spec's "non-negative real-valued stockpile
amount"); Python `int` is `ℤ`.  File/log I/O side effects are modelled by
explicit outcome values and structured log events.
-/

namespace ResourceGame

/-- The four resource categories: `RESOURCE_TYPES = ["gold", "stone", "wood", "food"]`. -/
inductive ResourceType where
  | gold
  | stone
  | wood
  | food
deriving DecidableEq, Repr

/-- The list `RESOURCE_TYPES`, in source order. -/
def RESOURCE_TYPES : List ResourceType :=
  [.gold, .stone, .wood, .food]

/-- `TOTAL_VILLAGERS = 100`. -/
def TOTAL_VILLAGERS : ℤ := 100

/-- `RESOURCE_PERCENTAGES = {"gold": 0.00004, "stone": 0.90, "wood": 0.001, "food": 0.0001}`,
as exact rationals. -/
def RESOURCE_PERCENTAGES : ResourceType → ℚ
  | .gold => 4 / 100000
  | .stone => 90 / 100
  | .wood => 1 / 1000
  | .food => 1 / 10000

/-- The resource ledger: the dict `{"gold": ..., "stone": ..., "wood": ..., "food": ...}`
of stockpile amounts (Python floats, modelled as `ℚ`). -/
structure Resources where
  gold : ℚ
  stone : ℚ
  wood : ℚ
  food : ℚ
deriving DecidableEq, Repr

/-- The villager allocation: the dict of per-category villager counts (Python ints). -/
structure Villagers where
  gold : ℤ
  stone : ℤ
  wood : ℤ
  food : ℤ
deriving DecidableEq, Repr

/-- `resources[t]`. -/
def rget (r : Resources) : ResourceType → ℚ
  | .gold => r.gold
  | .stone => r.stone
  | .wood => r.wood
  | .food => r.food

/-- `resources[t] = q`. -/
def rset (r : Resources) : ResourceType → ℚ → Resources
  | .gold, q => { r with gold := q }
  | .stone, q => { r with stone := q }
  | .wood, q => { r with wood := q }
  | .food, q => { r with food := q }

/-- `villagers[t]`. -/
def vcount (v : Villagers) : ResourceType → ℤ
  | .gold => v.gold
  | .stone => v.stone
  | .wood => v.wood
  | .food => v.food

/-- `villagers[t] = n`. -/
def vset (v : Villagers) : ResourceType → ℤ → Villagers
  | .gold, n => { v with gold := n }
  | .stone, n => { v with stone := n }
  | .wood, n => { v with wood := n }
  | .food, n => { v with food := n }

/-- `sum(villagers.values())` (the dict holds exactly the four categories). -/
def vsum (v : Villagers) : ℤ :=
  v.gold + v.stone + v.wood + v.food

/-- The zero-valued default record `{"gold": 0, "stone": 0, "wood": 0, "food": 0}`
for resources (used by `ensure_data_files` and the `load_resources` fallback). -/
def default_resources : Resources := ⟨0, 0, 0, 0⟩

/-- The zero-valued default record for villagers. -/
def default_villagers : Villagers := ⟨0, 0, 0, 0⟩

/-- Python `str.split()` with no argument: split on runs of whitespace,
discarding empty pieces.  `cur` accumulates the current token reversed. -/
def pySplitAux : List Char → List Char → List String
  | [], [] => []
  | [], cur => [String.mk cur.reverse]
  | c :: cs, cur =>
    if c.isWhitespace then
      match cur with
      | [] => pySplitAux cs []
      | _ => String.mk cur.reverse :: pySplitAux cs []
    else
      pySplitAux cs (c :: cur)

/-- `command.split()`. -/
def pySplit (s : String) : List String :=
  pySplitAux s.toList []

/-- Python `str.lower()` (ASCII case folding; the commands are ASCII). -/
def pyLower (s : String) : String :=
  String.mk (s.toList.map Char.toLower)

/-- Digits of a decimal numeral, most significant first; `none` if empty or
a non-digit appears. -/
def digitsToNatAux : List Char → ℕ → Option ℕ
  | [], acc => some acc
  | c :: cs, acc =>
    if c.isDigit then digitsToNatAux cs (acc * 10 + (c.toNat - 48)) else none

/-- `none` on the empty digit list (Python `int("")`, `int("-")` raise). -/
def digitsToNat : List Char → Option ℕ
  | [] => none
  | l => digitsToNatAux l 0

/-- Python `int(s)` on a whitespace-free token: optional sign followed by
decimal digits; `none` models `ValueError`. -/
def pyInt (s : String) : Option ℤ :=
  match s.toList with
  | '+' :: rest => (digitsToNat rest).map (fun n => (n : ℤ))
  | '-' :: rest => (digitsToNat rest).map (fun n => -(n : ℤ))
  | l => (digitsToNat l).map (fun n => (n : ℤ))

/-- `resource_type in RESOURCE_TYPES` for the (lowercased) name string. -/
def parseResource : String → Option ResourceType
  | "gold" => some .gold
  | "stone" => some .stone
  | "wood" => some .wood
  | "food" => some .food
  | _ => none

/-- One `log_message` call of `handle_command`, `load_resources` or
`load_villagers`, as a structured event carrying the interpolated values. -/
inductive LogMsg where
  /-- "Invalid command format. Use: get <resource> with <number> villagers/villager" -/
  | getUsage
  /-- "Invalid number of villagers.  Must be an integer." -/
  | invalidNumber
  /-- "Invalid resource type: {resource_type}.  Must be one of gold, stone, wood, food." -/
  | invalidResource (name : String)
  /-- "Too many villagers. You have {current_total_villagers} villagers assigned.
  You can assign a maximum of {TOTAL_VILLAGERS}." -/
  | tooMany (currentTotal : ℤ)
  /-- "Set {num_villagers} villagers to {resource_type}." -/
  | setVillagers (n : ℤ) (name : String)
  /-- "Current Resources: {json.dumps(resources, indent=4)}" -/
  | statusResources (r : Resources)
  /-- "Villager Allocation: {json.dumps(villagers, indent=4)}" -/
  | statusVillagers (v : Villagers)
  /-- "Total Gathering Villagers: {total_gathering_villagers}" -/
  | statusTotal (t : ℤ)
  /-- "Available commands:" -/
  | helpHeader
  /-- the `get` syntax line of `help` -/
  | helpGet
  /-- the `status` line of `help` -/
  | helpStatus
  /-- the `help` line of `help` -/
  | helpHelp
  /-- the `exit` line of `help` -/
  | helpExit
  /-- "Exiting game." -/
  | exiting
  /-- "Unknown command: {action}. Type 'help' for available commands." -/
  | unknown (action : String)
  /-- "Error loading resources: {e}.  Returning default resources." -/
  | loadResourcesWarning
  /-- "Error loading villagers: {e}.  Returning default villagers." -/
  | loadVillagersWarning
deriving DecidableEq, Repr

/-- Result of one `handle_command` invocation: either a normal return with the
(possibly updated) shared records and the logs emitted, or `sys.exit(0)` from
the `exit` command, or an uncaught `IndexError` (raised by `parts[3]` when the
command has exactly three tokens, the guard being `len(parts) < 3`). -/
inductive CmdResult where
  | ok (resources : Resources) (villagers : Villagers) (logs : List LogMsg)
  | exited (logs : List LogMsg)
  | indexError
deriving DecidableEq, Repr

/-- The body of `handle_command` after `parts = command.split()`.
Mirrors the source line by line: the `len(parts) < 3` guard is the
three-element list pattern; `parts[1]` is `p1`; `parts[3]` is `rest2.head?`
(absent ⇒ `IndexError`); `int(parts[3])` is tried before the resource-name
membership test, exactly as in the source. -/
def handleTokens (parts : List String) (resources : Resources) (villagers : Villagers) :
    CmdResult :=
  match parts with
  | [] => .ok resources villagers []
  | p0 :: _ =>
    let action := pyLower p0
    if action = "get" then
      match parts with
      | _ :: p1 :: _ :: rest2 =>
        let resource_str := pyLower p1
        match rest2 with
        | [] => .indexError
        | tok :: _ =>
          match pyInt tok with
          | none => .ok resources villagers [.invalidNumber]
          | some num_villagers =>
            match parseResource resource_str with
            | none => .ok resources villagers [.invalidResource resource_str]
            | some rt =>
              let current_total := vsum villagers
              if current_total - vcount villagers rt + num_villagers > TOTAL_VILLAGERS then
                .ok resources villagers [.tooMany current_total]
              else
                .ok resources (vset villagers rt num_villagers)
                  [.setVillagers num_villagers resource_str]
      | _ => .ok resources villagers [.getUsage]
    else if action = "status" then
      .ok resources villagers
        [.statusResources resources, .statusVillagers villagers, .statusTotal (vsum villagers)]
    else if action = "help" then
      .ok resources villagers [.helpHeader, .helpGet, .helpStatus, .helpHelp, .helpExit]
    else if action = "exit" then
      .exited [.exiting]
    else
      .ok resources villagers [.unknown action]

/-- `handle_command(command, resources, villagers)`. -/
def handle_command (command : String) (resources : Resources) (villagers : Villagers) :
    CmdResult :=
  handleTokens (pySplit command) resources villagers

/-- The per-category gain of one tick:
`resource_gain = num_villagers * RESOURCE_PERCENTAGES[t]`, clamped to `0`
when negative (`if resource_gain < 0: resource_gain = 0`). -/
def gainFor (villagers : Villagers) (t : ResourceType) : ℚ :=
  let resource_gain := (vcount villagers t : ℚ) * RESOURCE_PERCENTAGES t
  if resource_gain < 0 then 0 else resource_gain

/-- `update_resources(resources, villagers)`: one accumulator tick, adding the
clamped gain to each category in `RESOURCE_TYPES` order. -/
def update_resources (resources : Resources) (villagers : Villagers) : Resources :=
  RESOURCE_TYPES.foldl (fun res t => rset res t (rget res t + gainFor villagers t)) resources

/-- `n` iterations of the accumulator tick of `game_loop` (the villager
allocation is fixed between ticks). -/
def tickN : ℕ → Resources → Villagers → Resources
  | 0, r, _ => r
  | n + 1, r, v => tickN n (update_resources r v) v

/-- Outcome of the `open` + `json.load` attempt backing a `load_*` call:
the file is missing (`FileNotFoundError`); the file's bytes do not decode as
text, so `f.read()` inside `json.load` raises `UnicodeDecodeError` — a
`ValueError` but not a `json.JSONDecodeError`; the decoded text fails JSON
parsing (`json.JSONDecodeError`); or a record parses successfully. -/
inductive LoadOutcome (α : Type) where
  | fileMissing
  | undecodable
  | parseError
  | parsed (r : α)
deriving DecidableEq, Repr

/-- Result of a `load_*` call: a normal return carrying the record and the
logs emitted, or an exception that the `except (FileNotFoundError,
json.JSONDecodeError)` clause does not catch and that propagates to the
caller (`main` calls the loads outside any try block). -/
inductive LoadResult (α : Type) where
  | ok (r : α) (logs : List LogMsg)
  | raised
deriving DecidableEq, Repr

/-- `load_resources()`: the parsed record on success; on a missing file or a
`json.JSONDecodeError`, the zero default together with the warning log; on an
undecodable file the `UnicodeDecodeError` is uncaught and propagates. -/
def load_resources : LoadOutcome Resources → LoadResult Resources
  | .parsed r => .ok r []
  | .fileMissing => .ok default_resources [.loadResourcesWarning]
  | .parseError => .ok default_resources [.loadResourcesWarning]
  | .undecodable => .raised

/-- `load_villagers()`, same shape as `load_resources`. -/
def load_villagers : LoadOutcome Villagers → LoadResult Villagers
  | .parsed v => .ok v []
  | .fileMissing => .ok default_villagers [.loadVillagersWarning]
  | .parseError => .ok default_villagers [.loadVillagersWarning]
  | .undecodable => .raised

/-- The f-string
`f"Too many villagers. You have {current_total_villagers} villagers assigned. You can assign a maximum of {TOTAL_VILLAGERS}."`. -/
def renderTooMany (currentTotal : ℤ) : String :=
  "Too many villagers. You have " ++ toString currentTotal ++
    (" villagers assigned. You can assign a maximum of " ++ toString TOTAL_VILLAGERS ++ ".")

/-- The f-string
`f"Unknown command: {action}. Type 'help' for available commands."`. -/
def renderUnknown (action : String) : String :=
  "Unknown command: " ++ action ++ (". Type \x27" ++ ("help" ++ "\x27 for available commands."))

/-- A full in-memory game state: the two shared records. -/
structure GameState where
  resources : Resources
  villagers : Villagers
deriving DecidableEq, Repr

/-- States reachable from the zero-valued initial records by any interleaving
of interpreter commands (normal returns) and accumulator ticks. -/
inductive Reachable : GameState → Prop
  | init : Reachable ⟨default_resources, default_villagers⟩
  | cmd {st : GameState} {s : String} {r' : Resources} {v' : Villagers} {logs : List LogMsg} :
      Reachable st →
      handle_command s st.resources st.villagers = .ok r' v' logs →
      Reachable ⟨r', v'⟩
  | tick {st : GameState} :
      Reachable st →
      Reachable ⟨update_resources st.resources st.villagers, st.villagers⟩

/-- `True` when the command string, should it reach the count read at
`parts[3]`, carries a non-negative integer there.  Restricting commands to
this class is what the non-negativity invariant needs. -/
def countTokenOK (s : String) : Bool :=
  match (pySplit s).get? 3 with
  | some tok =>
    match pyInt tok with
    | some n => decide (0 ≤ n)
    | none => true
  | none => true

/-- States reachable as in `Reachable`, but only through commands whose count
token (if any) is non-negative. -/
inductive ReachableNN : GameState → Prop
  | init : ReachableNN ⟨default_resources, default_villagers⟩
  | cmd {st : GameState} {s : String} {r' : Resources} {v' : Villagers} {logs : List LogMsg} :
      ReachableNN st →
      countTokenOK s = true →
      handle_command s st.resources st.villagers = .ok r' v' logs →
      ReachableNN ⟨r', v'⟩
  | tick {st : GameState} :
      ReachableNN st →
      ReachableNN ⟨update_resources st.resources st.villagers, st.villagers⟩

section Lemmas

/-- Reading a category after writing one. -/
theorem vcount_vset (v : Villagers) (rt t : ResourceType) (n : ℤ) :
    vcount (vset v rt n) t = if t = rt then n else vcount v t := by
  cases rt <;> cases t <;> simp [vcount, vset]

/-- Writing one category changes the total by the difference at that category. -/
theorem vsum_vset (v : Villagers) (rt : ResourceType) (n : ℤ) :
    vsum (vset v rt n) = vsum v - vcount v rt + n := by
  cases rt <;> simp [vsum, vset, vcount] <;> ring

/-- One tick, read back at one category: the clamped gain is added. -/
theorem rget_update_resources (r : Resources) (v : Villagers) (t : ResourceType) :
    rget (update_resources r v) t = rget r t + gainFor v t := by
  cases t <;> rfl

/-- The clamped gain is never negative. -/
theorem gainFor_nonneg (v : Villagers) (t : ResourceType) : 0 ≤ gainFor v t := by
  simp only [gainFor]
  split
  · exact le_refl 0
  · next h => exact not_lt.mp h

/-- With a non-negative count the clamp is inert:
the gain is exactly `villagers * rate`. -/
theorem gainFor_eq_of_nonneg (v : Villagers) (t : ResourceType) (h : 0 ≤ vcount v t) :
    gainFor v t = (vcount v t : ℚ) * RESOURCE_PERCENTAGES t := by
  have hrate : (0 : ℚ) ≤ RESOURCE_PERCENTAGES t := by cases t <;> norm_num [RESOURCE_PERCENTAGES]
  have hnn : ¬ ((vcount v t : ℚ) * RESOURCE_PERCENTAGES t < 0) :=
    not_lt.mpr (mul_nonneg (by exact_mod_cast h) hrate)
  simp only [gainFor, if_neg hnn]

/-- Characterization of a normal `handle_command` return: the resources are
never written, and the villagers are either untouched or a single category is
set to the integer parsed from `parts[3]`, after the headcount check passed. -/
theorem handleTokens_ok (parts : List String) (r r' : Resources) (v v' : Villagers)
    (logs : List LogMsg) (h : handleTokens parts r v = .ok r' v' logs) :
    r' = r ∧
      (v' = v ∨ ∃ rt n tok, parts.get? 3 = some tok ∧ pyInt tok = some n ∧
        v' = vset v rt n ∧ vsum v - vcount v rt + n ≤ TOTAL_VILLAGERS) := by
  have hcommon : ∀ (p0 : String) (tl : List String), pyLower p0 ≠ "get" →
      handleTokens (p0 :: tl) r v = .ok r' v' logs → r' = r ∧ v' = v := by
    intro p0 tl hget hc
    simp only [handleTokens, if_neg hget] at hc
    by_cases hst : pyLower p0 = "status"
    · rw [if_pos hst] at hc; cases hc; exact ⟨rfl, rfl⟩
    · rw [if_neg hst] at hc
      by_cases hh : pyLower p0 = "help"
      · rw [if_pos hh] at hc; cases hc; exact ⟨rfl, rfl⟩
      · rw [if_neg hh] at hc
        by_cases he : pyLower p0 = "exit"
        · rw [if_pos he] at hc; cases hc
        · rw [if_neg he] at hc; cases hc; exact ⟨rfl, rfl⟩
  match parts with
  | [] =>
    simp only [handleTokens] at h
    cases h
    exact ⟨rfl, Or.inl rfl⟩
  | p0 :: tl =>
    by_cases hget : pyLower p0 = "get"
    · match tl with
      | [] => simp only [handleTokens, if_pos hget] at h; cases h; exact ⟨rfl, Or.inl rfl⟩
      | [p1] => simp only [handleTokens, if_pos hget] at h; cases h; exact ⟨rfl, Or.inl rfl⟩
      | [p1, p2] => simp only [handleTokens, if_pos hget] at h; cases h
      | p1 :: p2 :: tok :: rest3 =>
        simp only [handleTokens, if_pos hget] at h
        cases hint : pyInt tok with
        | none => simp only [hint] at h; cases h; exact ⟨rfl, Or.inl rfl⟩
        | some n =>
          simp only [hint] at h
          cases hres : parseResource (pyLower p1) with
          | none => simp only [hres] at h; cases h; exact ⟨rfl, Or.inl rfl⟩
          | some rt =>
            simp only [hres] at h
            by_cases hover : vsum v - vcount v rt + n > TOTAL_VILLAGERS
            · rw [if_pos hover] at h; cases h; exact ⟨rfl, Or.inl rfl⟩
            · rw [if_neg hover] at h
              cases h
              exact ⟨rfl, Or.inr ⟨rt, n, tok, rfl, hint, rfl, not_lt.mp hover⟩⟩
    · obtain ⟨h1, h2⟩ := hcommon p0 tl hget h
      exact ⟨h1, Or.inl h2⟩

end Lemmas

example : pySplit "get gold   with  10 villagers" = ["get", "gold", "with", "10", "villagers"] := by
  decide

example : pyInt "-5" = some (-5) := by decide

example : pyInt "xyz" = none := by decide

/-- C1: claimed — every `get` command with fewer tokens than the full five-token
form reports a usage error, raises no exception, and mutates nothing.  The code
disagrees: the guard is `len(parts) < 3` while the count is read at `parts[3]`,
so the three-token command `get gold with` raises an uncaught `IndexError`
(first conjunct).  A two-token `get gold` does get the usage error (second
conjunct), and the four-token `get gold with 10` — still fewer tokens than the
full form — succeeds and mutates the allocation (third conjunct). -/
theorem c1_three_token_get_raises :
    handle_command "get gold with" default_resources default_villagers = .indexError ∧
    handle_command "get gold" default_resources default_villagers =
      .ok default_resources default_villagers [.getUsage] ∧
    handle_command "get gold with 10" default_resources default_villagers =
      .ok default_resources (vset default_villagers .gold 10) [.setVillagers 10 "gold"] := by
  refine ⟨by decide, by decide, by decide⟩

/-- C2: counterexample — the command `get gold with -5 villagers` is accepted
(the headcount check passes since the total only drops) and stores the negative
count `-5`, so a successful `get` can store a negative count. -/
theorem c2_counterexample :
    handle_command "get gold with -5 villagers" default_resources default_villagers =
      .ok default_resources (vset default_villagers .gold (-5)) [.setVillagers (-5) "gold"] ∧
    vcount (vset default_villagers .gold (-5)) .gold < 0 := by
  refine ⟨by decide, by decide⟩

/-- C2 (amended): a successful `get` stores exactly the parsed integer count,
which may be negative; restricted to command sequences whose count tokens are
non-negative, every reachable allocation has all counts non-negative. -/
theorem c2_amended_nonneg (st : GameState) (h : ReachableNN st) :
    ∀ t, 0 ≤ vcount st.villagers t := by
  induction h with
  | init => intro t; cases t <;> decide
  | @cmd st s r' v' logs hr hc hok ih =>
    intro t
    have hok' : handleTokens (pySplit s) st.resources st.villagers = .ok r' v' logs := hok
    obtain ⟨-, hv⟩ := handleTokens_ok (pySplit s) st.resources r' st.villagers v' logs hok'
    rcases hv with rfl | ⟨rt, n, tok, hget3, hint, rfl, -⟩
    · exact ih t
    · show 0 ≤ vcount (vset st.villagers rt n) t
      rw [vcount_vset]
      split
      · simp only [countTokenOK, hget3, hint] at hc
        exact of_decide_eq_true hc
      · exact ih t
  | tick hr ih => exact ih

/-- C2 (amended) witness at the initial state. -/
theorem c2_amended_nonneg_witness :
    ReachableNN ⟨default_resources, default_villagers⟩ ∧
      ∀ t, 0 ≤ vcount default_villagers t :=
  ⟨.init, c2_amended_nonneg _ .init⟩

/-- C3: for all states reachable from the zero-valued initial state by commands
and ticks, the total villager headcount is at most `TOTAL_VILLAGERS` — the
over-allocation check makes every successful `get` re-establish the bound, and
no other transition touches the allocation. -/
theorem c3_total_bound (st : GameState) (h : Reachable st) :
    vsum st.villagers ≤ TOTAL_VILLAGERS := by
  induction h with
  | init => decide
  | @cmd st s r' v' logs hr hok ih =>
    have hok' : handleTokens (pySplit s) st.resources st.villagers = .ok r' v' logs := hok
    obtain ⟨-, hv⟩ := handleTokens_ok (pySplit s) st.resources r' st.villagers v' logs hok'
    rcases hv with rfl | ⟨rt, n, tok, -, -, rfl, hle⟩
    · exact ih
    · show vsum (vset st.villagers rt n) ≤ TOTAL_VILLAGERS
      rw [vsum_vset]
      exact hle
  | tick hr ih => exact ih

/-- C3 witness at the initial state. -/
theorem c3_total_bound_witness :
    Reachable ⟨default_resources, default_villagers⟩ ∧
      vsum default_villagers ≤ TOTAL_VILLAGERS :=
  ⟨.init, c3_total_bound _ .init⟩

/-- C4: for a fixed (non-negative, per the spec's data model) allocation, `N`
accumulator ticks add exactly `N * villagers_t * rate_t` to each category `t`. -/
theorem c4_deterministic_gain (r : Resources) (v : Villagers)
    (h : ∀ t, 0 ≤ vcount v t) (N : ℕ) (t : ResourceType) :
    rget (tickN N r v) t = rget r t + N * (vcount v t : ℚ) * RESOURCE_PERCENTAGES t := by
  induction N generalizing r with
  | zero => simp [tickN]
  | succ n ih =>
    show rget (tickN n (update_resources r v) v) t = _
    rw [ih (update_resources r v), rget_update_resources, gainFor_eq_of_nonneg v t (h t)]
    push_cast
    ring

/-- C4 witness: `get gold with 10 villagers` from the zero allocation yields
`{gold: 10, stone: 0, wood: 0, food: 0}`, and one tick then grows the gold
stockpile by exactly `10 * 0.00004 = 0.0004 = 4/10000`. -/
theorem c4_deterministic_gain_witness :
    handle_command "get gold with 10 villagers" default_resources default_villagers =
      .ok default_resources (⟨10, 0, 0, 0⟩ : Villagers) [.setVillagers 10 "gold"] ∧
    (∀ t, 0 ≤ vcount (⟨10, 0, 0, 0⟩ : Villagers) t) ∧
    rget (tickN 1 default_resources (⟨10, 0, 0, 0⟩ : Villagers)) .gold =
      rget default_resources .gold +
        (1 : ℕ) * ((vcount (⟨10, 0, 0, 0⟩ : Villagers) .gold : ℚ)) *
          RESOURCE_PERCENTAGES .gold ∧
    rget (tickN 1 default_resources (⟨10, 0, 0, 0⟩ : Villagers)) .gold = 4 / 10000 :=
  ⟨by decide, fun t => by cases t <;> decide,
    c4_deterministic_gain default_resources (⟨10, 0, 0, 0⟩ : Villagers)
      (fun t => by cases t <;> decide) 1 .gold,
    by
      rw [show tickN 1 default_resources (⟨10, 0, 0, 0⟩ : Villagers) =
            update_resources default_resources (⟨10, 0, 0, 0⟩ : Villagers) from rfl,
        rget_update_resources, gainFor_eq_of_nonneg _ _ (by decide)]
      norm_num [rget, default_resources, vcount, RESOURCE_PERCENTAGES]⟩

/-- C5: each ledger value never decreases under a tick — the per-category gain
is clamped at zero — and hence is monotonically non-decreasing across
successive ticks, for every starting ledger and every allocation. -/
theorem c5_ledger_monotone (r : Resources) (v : Villagers) (t : ResourceType) (n : ℕ) :
    rget r t ≤ rget (update_resources r v) t ∧
      rget (tickN n r v) t ≤ rget (tickN (n + 1) r v) t := by
  have hstep : ∀ r : Resources, rget r t ≤ rget (update_resources r v) t := by
    intro r
    rw [rget_update_resources]
    exact le_add_of_nonneg_right (gainFor_nonneg v t)
  refine ⟨hstep r, ?_⟩
  induction n generalizing r with
  | zero => exact hstep r
  | succ m ih => exact ih (update_resources r v)

/-- C6: a `get` whose new count would push the headcount over
`TOTAL_VILLAGERS` reports the over-allocation message — which spells out the
current total and the maximum — and leaves the allocation (and ledger) exactly
unchanged. -/
theorem c6_overalloc_rejected (r : Resources) (v : Villagers) (rs x cs : String)
    (rest : List String) (n : ℤ) (rt : ResourceType)
    (hres : parseResource (pyLower rs) = some rt)
    (hn : pyInt cs = some n)
    (hover : vsum v - vcount v rt + n > TOTAL_VILLAGERS) :
    handleTokens ("get" :: rs :: x :: cs :: rest) r v = .ok r v [.tooMany (vsum v)] ∧
      renderTooMany (vsum v) =
        "Too many villagers. You have " ++ toString (vsum v) ++
          (" villagers assigned. You can assign a maximum of " ++
            toString TOTAL_VILLAGERS ++ ".") := by
  refine ⟨?_, rfl⟩
  simp only [handleTokens, hn, hres]
  rw [if_pos (by decide : pyLower "get" = "get"), if_pos hover]

/-- C6 witness: the spec's example — 60 villagers already on gold, asking for
50 on stone (total 110 > 100) — is rejected without mutation. -/
theorem c6_overalloc_rejected_witness :
    parseResource (pyLower "stone") = some ResourceType.stone ∧
    pyInt "50" = some 50 ∧
    vsum (⟨60, 0, 0, 0⟩ : Villagers) - vcount (⟨60, 0, 0, 0⟩ : Villagers) .stone + 50 >
      TOTAL_VILLAGERS ∧
    (handleTokens ["get", "stone", "with", "50", "villagers"] default_resources
        (⟨60, 0, 0, 0⟩ : Villagers) =
      .ok default_resources (⟨60, 0, 0, 0⟩ : Villagers)
        [.tooMany (vsum (⟨60, 0, 0, 0⟩ : Villagers))] ∧
      renderTooMany (vsum (⟨60, 0, 0, 0⟩ : Villagers)) =
        "Too many villagers. You have " ++ toString (vsum (⟨60, 0, 0, 0⟩ : Villagers)) ++
          (" villagers assigned. You can assign a maximum of " ++
            toString TOTAL_VILLAGERS ++ ".")) :=
  ⟨by decide, by decide, by decide,
    c6_overalloc_rejected default_resources (⟨60, 0, 0, 0⟩ : Villagers) "stone" "with" "50"
      ["villagers"] 50 .stone (by decide) (by decide) (by decide)⟩

/-- C7: counterexample — for the invalid resource name `blah` with the
non-integer count token `xyz`, the interpreter reports the invalid-number
error, not the invalid-resource error (the count is parsed first), so "reports
an invalid-resource error ... for every value of the count token" fails. -/
theorem c7_counterexample :
    handle_command "get blah with xyz villagers" default_resources default_villagers =
      .ok default_resources default_villagers [.invalidNumber] ∧
    LogMsg.invalidNumber ≠ LogMsg.invalidResource (pyLower "blah") := by
  refine ⟨by decide, by decide⟩

/-- C7 (amended): when the count token does parse as an integer, a `get` with a
resource name outside {gold, stone, wood, food} reports the invalid-resource
error and takes no action. -/
theorem c7_amended_invalid_resource (r : Resources) (v : Villagers) (rs x cs : String)
    (rest : List String) (n : ℤ)
    (hn : pyInt cs = some n)
    (hres : parseResource (pyLower rs) = none) :
    handleTokens ("get" :: rs :: x :: cs :: rest) r v =
      .ok r v [.invalidResource (pyLower rs)] := by
  simp only [handleTokens, hn, hres]
  rw [if_pos (by decide : pyLower "get" = "get")]

/-- C7 (amended) witness: `get blah with 7 villagers` reports the
invalid-resource error and mutates nothing. -/
theorem c7_amended_invalid_resource_witness :
    pyInt "7" = some 7 ∧
    parseResource (pyLower "blah") = none ∧
    handleTokens ["get", "blah", "with", "7", "villagers"] default_resources default_villagers =
      .ok default_resources default_villagers [.invalidResource (pyLower "blah")] :=
  ⟨by decide, by decide,
    c7_amended_invalid_resource default_resources default_villagers "blah" "with" "7"
      ["villagers"] 7 (by decide) (by decide)⟩

/-- C8: counterexample — a backing file of undecodable bytes has contents that
fail to parse, yet `load_resources` does not return the zero default with a
warning: `f.read()` inside `json.load` raises `UnicodeDecodeError`, which is a
`ValueError` but not a `json.JSONDecodeError`, so the except clause misses it
and the exception propagates out of the load (fatal, since `main` calls the
loads outside any try block). -/
theorem c8_counterexample :
    load_resources .undecodable = .raised ∧
    load_resources .undecodable ≠ .ok default_resources [.loadResourcesWarning] ∧
    load_villagers .undecodable = .raised := by
  refine ⟨rfl, by decide, rfl⟩

/-- C8 (amended): when the backing file is absent (`FileNotFoundError`) or its
decoded text fails JSON parsing (`json.JSONDecodeError`), `load_resources` and
`load_villagers` return the zero-valued default record together with the
warning log entry and raise nothing; the undecodable-bytes case is the one
parse-failure path that instead propagates an uncaught error. -/
theorem c8_load_defaults (o₁ : LoadOutcome Resources) (o₂ : LoadOutcome Villagers)
    (h₁ : o₁ = .fileMissing ∨ o₁ = .parseError)
    (h₂ : o₂ = .fileMissing ∨ o₂ = .parseError) :
    load_resources o₁ = .ok default_resources [.loadResourcesWarning] ∧
      load_villagers o₂ = .ok default_villagers [.loadVillagersWarning] := by
  constructor
  · rcases h₁ with rfl | rfl <;> rfl
  · rcases h₂ with rfl | rfl <;> rfl

/-- C8 (amended) witness: a missing resources file and a villagers file whose
decoded text fails JSON parsing. -/
theorem c8_load_defaults_witness :
    load_resources .fileMissing = .ok default_resources [.loadResourcesWarning] ∧
      load_villagers .parseError = .ok default_villagers [.loadVillagersWarning] :=
  c8_load_defaults .fileMissing .parseError (Or.inl rfl) (Or.inr rfl)

/-- C9: `status` and `help` mutate neither record (they return the records
unchanged and only log), and an unrecognized action keyword leaves both
records unchanged and logs the unknown-command message, whose rendering names
the offending (lowercased) token and points at `help`. -/
theorem c9_status_help_unknown_frame (r : Resources) (v : Villagers) :
    (∀ p0 rest, pyLower p0 = "status" →
        handleTokens (p0 :: rest) r v =
          .ok r v [.statusResources r, .statusVillagers v, .statusTotal (vsum v)]) ∧
    (∀ p0 rest, pyLower p0 = "help" →
        handleTokens (p0 :: rest) r v =
          .ok r v [.helpHeader, .helpGet, .helpStatus, .helpHelp, .helpExit]) ∧
    (∀ p0 rest, pyLower p0 ≠ "get" → pyLower p0 ≠ "status" → pyLower p0 ≠ "help" →
        pyLower p0 ≠ "exit" →
        handleTokens (p0 :: rest) r v = .ok r v [.unknown (pyLower p0)] ∧
          renderUnknown (pyLower p0) =
            "Unknown command: " ++ pyLower p0 ++
              (". Type \x27" ++ ("help" ++ "\x27 for available commands."))) := by
  refine ⟨?_, ?_, ?_⟩
  · intro p0 rest h
    simp [handleTokens, h]
  · intro p0 rest h
    simp [handleTokens, h]
  · intro p0 rest h1 h2 h3 h4
    refine ⟨?_, rfl⟩
    simp [handleTokens, h1, h2, h3, h4]

/-- C9 witness: `status` and the unknown command `foo` at the default records. -/
theorem c9_status_help_unknown_frame_witness :
    handleTokens ["status"] default_resources default_villagers =
      .ok default_resources default_villagers
        [.statusResources default_resources, .statusVillagers default_villagers,
          .statusTotal (vsum default_villagers)] ∧
    handleTokens ["foo"] default_resources default_villagers =
      .ok default_resources default_villagers [.unknown (pyLower "foo")] :=
  ⟨(c9_status_help_unknown_frame default_resources default_villagers).1 "status" []
      (by decide),
    ((c9_status_help_unknown_frame default_resources default_villagers).2.2 "foo" []
      (by decide) (by decide) (by decide) (by decide)).1⟩

/-- C10: a `get` command with at least four tokens is interpreted from its
second and fourth tokens only — the third token need not be `with` and
anything after the fourth token is ignored, so `get <r> <x> <c> <rest...>`
behaves exactly as `get <r> with <c> villagers`. -/
theorem c10_third_token_ignored (r : Resources) (v : Villagers) (rs x cs : String)
    (rest : List String) :
    handleTokens ("get" :: rs :: x :: cs :: rest) r v =
      handleTokens ["get", rs, "with", cs, "villagers"] r v := rfl

end ResourceGame
